import Mathlib

/-
Verification of the exception-dispatch subsystem of the rustos kernel.

The development shallowly embeds the relevant parts of the source:
  - src/rustos/src/gdt.rs        (TSS, fault stack, GDT, gdt::init)
  - src/rustos/src/interrupts.rs (IDT, breakpoint and double-fault handlers)
  - src/rustos/src/lib.rs        (init sequencer, exit_qemu, test panic handler)
  - src/rustos/src/main.rs       (release panic handler)
  - src/rustos/tests/stack_overflow.rs (test double-fault handler)

Machine addresses are modelled as Nat; the link-time addresses of the
fault stack and of the TSS are free parameters.  Side effects (writing
diagnostic text, port writes, hardware register loads) are modelled as
explicit event traces.
-/

namespace RustOS

/-! ## Constants from gdt.rs -/

/-- gdt.rs: the 0th IST entry is the double fault stack.
Rust: pub const DOUBLE_FAULT_IST_INDEX: u16 = 0. -/
def DOUBLE_FAULT_IST_INDEX : Nat := 0

/-- gdt.rs: const STACK_SIZE: usize = 4096 * 5. -/
def STACK_SIZE : Nat := 4096 * 5

/-- gdt.rs: static mut STACK: [u8; STACK_SIZE] = [0; STACK_SIZE].
A statically allocated, zero-initialised byte region of fixed size. -/
def STACK : List Nat := List.replicate STACK_SIZE 0

/-! ## Machine-state snapshot and observable output -/

/-- The machine-state snapshot pushed by the CPU on an exception
(x86_64 InterruptStackFrame).  Field values are modelled as Nat. -/
structure InterruptStackFrame where
  instruction_pointer : Nat
  code_segment : Nat
  cpu_flags : Nat
  stack_pointer : Nat
  stack_segment : Nat
deriving DecidableEq

/-- A deterministic rendering of the snapshot, standing for the Debug
formatting used by the handlers when printing the stack frame. -/
def formatFrame (sf : InterruptStackFrame) : String :=
  "InterruptStackFrame rip=" ++ toString sf.instruction_pointer ++
  " cs=" ++ toString sf.code_segment ++
  " rflags=" ++ toString sf.cpu_flags ++
  " rsp=" ++ toString sf.stack_pointer ++
  " ss=" ++ toString sf.stack_segment

/-- Observable output actions of the kernel: a line written to the VGA
text buffer (vga_buffer.rs println), a line written to the serial port
(serial.rs serial_println), or a write of an exit code to the QEMU
isa-debug-exit port 0xf4 (lib.rs exit_qemu). -/
inductive OutputEvent
| vgaLine (s : String)
| serialLine (s : String)
| qemuExit (code : Nat)
deriving DecidableEq

/-- lib.rs: enum QemuExitCode with Success = 0x10 and Failed = 0x11. -/
inductive QemuExitCode
| Success
| Failed
deriving DecidableEq

/-- lib.rs: the repr(u32) discriminant written to port 0xf4. -/
def QemuExitCode.toCode : QemuExitCode → Nat
| .Success => 0x10
| .Failed => 0x11

/-- lib.rs exit_qemu: write the exit code to port 0xf4, modelled as an
output event. -/
def exit_qemu (c : QemuExitCode) : OutputEvent :=
  OutputEvent.qemuExit c.toCode

/-- Terminal action of a diverging computation.  Every diverging path in
this repository ends in an unconditional spin loop (loop with an empty
body), after having emitted its output. -/
inductive Terminal
| haltLoop
deriving DecidableEq

/-- A run of a diverging (never-returning) function: the output it emits
followed by its terminal action. -/
structure DivergingRun where
  output : List OutputEvent
  terminal : Terminal
deriving DecidableEq

/-- Outcome of invoking an exception handler: either it returns normally
to the interrupted program (with its emitted output and the final state
of the stack frame it received by mutable reference), or it diverges. -/
inductive HandlerOutcome
| returns (out : List OutputEvent) (sf : InterruptStackFrame)
| diverges (run : DivergingRun)
deriving DecidableEq

/-! ## Panic runtimes and handlers -/

/-- Which panic runtime is linked into the binary: main.rs installs a
handler that prints the panic info to the VGA buffer and loops; in test
builds lib.rs routes panics to test_panic_handler, which reports over
serial and exits QEMU with the Failed code before looping. -/
inductive PanicRuntime
| mainPanic
| testPanic
deriving DecidableEq

/-- Semantics of a Rust panic with message msg under each runtime.
main.rs: println of the info, then loop.
lib.rs test_panic_handler: serial_println of a failure banner and the
info, exit_qemu(Failed), then loop. -/
def runPanic : PanicRuntime → String → DivergingRun
| .mainPanic, msg => ⟨[OutputEvent.vgaLine msg], Terminal.haltLoop⟩
| .testPanic, msg =>
    ⟨[OutputEvent.serialLine "[failed]",
      OutputEvent.serialLine ("Error: " ++ msg),
      exit_qemu QemuExitCode.Failed], Terminal.haltLoop⟩

/-- interrupts.rs breakpoint_handler report text. -/
def breakpointReport (sf : InterruptStackFrame) : String :=
  "EXCEPTION: BREAKPOINT\n" ++ formatFrame sf

/-- interrupts.rs breakpoint_handler: println the report, then return;
the stack frame, taken by mutable reference, is only read. -/
def breakpoint_run (sf : InterruptStackFrame) :
    List OutputEvent × InterruptStackFrame :=
  ([OutputEvent.vgaLine (breakpointReport sf)], sf)

/-- interrupts.rs double_fault_handler report text. -/
def doubleFaultReport (sf : InterruptStackFrame) : String :=
  "EXCEPTION: DOUBLE FAULT\n" ++ formatFrame sf

/-- interrupts.rs double_fault_handler: panics with the report; the
divergence is realised by the linked panic runtime.  The error code is
received and ignored (Rust parameter _error_code). -/
def double_fault_run (pr : PanicRuntime) (sf : InterruptStackFrame)
    (_error_code : Nat) : DivergingRun :=
  runPanic pr (doubleFaultReport sf)

/-- tests/stack_overflow.rs test_double_fault_handler: serial_println
"[ok]", exit_qemu(Success), then loop. -/
def test_double_fault_run (_sf : InterruptStackFrame)
    (_error_code : Nat) : DivergingRun :=
  ⟨[OutputEvent.serialLine "[ok]", exit_qemu QemuExitCode.Success],
   Terminal.haltLoop⟩

/-- The handler functions the repository registers in a dispatch table. -/
inductive HandlerTag
| breakpoint_handler
| double_fault_handler
| test_double_fault_handler
deriving DecidableEq

/-- Invoke a registered handler on a snapshot and an error code (the
error code is ignored by the breakpoint handler, whose Rust signature
has none). -/
def invokeHandler (pr : PanicRuntime) :
    HandlerTag → InterruptStackFrame → Nat → HandlerOutcome
| .breakpoint_handler, sf, _ =>
    HandlerOutcome.returns (breakpoint_run sf).1 (breakpoint_run sf).2
| .double_fault_handler, sf, e =>
    HandlerOutcome.diverges (double_fault_run pr sf e)
| .test_double_fault_handler, sf, e =>
    HandlerOutcome.diverges (test_double_fault_run sf e)

/-! ## Task State Segment (gdt.rs) -/

/-- x86_64 TaskStateSegment as used here: a 7-entry interrupt stack
table and a 3-entry privilege stack table of virtual addresses. -/
structure TaskStateSegment where
  interrupt_stack_table : Fin 7 → Nat
  privilege_stack_table : Fin 3 → Nat

/-- TaskStateSegment::new(): all stack-table entries are the zero
address. -/
def TaskStateSegment.new : TaskStateSegment :=
  ⟨fun _ => 0, fun _ => 0⟩

/-- The IST slot selected by DOUBLE_FAULT_IST_INDEX. -/
def doubleFaultSlot : Fin 7 := ⟨DOUBLE_FAULT_IST_INDEX, by decide⟩

/-- gdt.rs TSS initialiser: start from TaskStateSegment::new and set the
interrupt-stack-table entry at DOUBLE_FAULT_IST_INDEX to the top of the
static fault stack, stack_start + STACK_SIZE, computed once.
stack_start is the link-time address of STACK, a free parameter here. -/
def buildTSS (stack_start : Nat) : TaskStateSegment :=
  let tss := TaskStateSegment.new
  let stack_end := stack_start + STACK_SIZE
  { tss with
    interrupt_stack_table :=
      Function.update tss.interrupt_stack_table doubleFaultSlot stack_end }

/-! ## Global Descriptor Table (gdt.rs) -/

/-- The descriptors this program appends: the implicit null descriptor
occupying slot 0 of a fresh table, the kernel code segment, and a TSS
segment referencing the task-state structure by address. -/
inductive Descriptor
| null_descriptor
| kernel_code_segment
| tss_segment (tss_addr : Nat)
deriving DecidableEq

/-- x86_64 SegmentSelector: table index plus requested privilege level
(Ring0 here). -/
structure SegmentSelector where
  index : Nat
  rpl : Nat
deriving DecidableEq

/-- x86_64 GlobalDescriptorTable, modelled at descriptor granularity. -/
structure GlobalDescriptorTable where
  table : List Descriptor
deriving DecidableEq

/-- GlobalDescriptorTable::new(): slot 0 holds the null descriptor. -/
def GlobalDescriptorTable.new : GlobalDescriptorTable :=
  ⟨[Descriptor.null_descriptor]⟩

/-- add_entry: append a descriptor and return the selector for its
slot, at privilege level 0. -/
def GlobalDescriptorTable.add_entry (g : GlobalDescriptorTable)
    (d : Descriptor) : GlobalDescriptorTable × SegmentSelector :=
  (⟨g.table ++ [d]⟩, ⟨g.table.length, 0⟩)

/-- gdt.rs struct Selectors. -/
structure Selectors where
  code_selector : SegmentSelector
  tss_selector : SegmentSelector
deriving DecidableEq

/-- gdt.rs GDT initialiser: a fresh table, then add_entry of the kernel
code segment, then add_entry of a TSS segment referencing the TSS by
address (a free parameter for the link-time address of TSS). -/
def buildGDT (tss_addr : Nat) : GlobalDescriptorTable × Selectors :=
  let g0 := GlobalDescriptorTable.new
  let p1 := g0.add_entry Descriptor.kernel_code_segment
  let p2 := p1.1.add_entry (Descriptor.tss_segment tss_addr)
  (p2.1, ⟨p1.2, p2.2⟩)

/-! ## Interrupt Descriptor Table (interrupts.rs) -/

/-- One present IDT entry: the registered handler and the optional IST
(alternate stack) index set by set_stack_index.  A freshly set entry has
no stack index. -/
structure IdtEntry where
  handler : HandlerTag
  stack_index : Option Nat
deriving DecidableEq

/-- x86_64 InterruptDescriptorTable viewed as its 256-entry vector
table; absent entries are none. -/
structure InterruptDescriptorTable where
  entries : Fin 256 → Option IdtEntry

/-- InterruptDescriptorTable::new(): every entry absent. -/
def InterruptDescriptorTable.new : InterruptDescriptorTable :=
  ⟨fun _ => none⟩

/-- set_handler_fn on the entry for vector v: the entry becomes present
with the given handler and no stack index. -/
def InterruptDescriptorTable.set_handler (idt : InterruptDescriptorTable)
    (v : Fin 256) (h : HandlerTag) : InterruptDescriptorTable :=
  ⟨Function.update idt.entries v (some ⟨h, none⟩)⟩

/-- set_stack_index on the entry for vector v: record IST index i in the
options of the (present) entry. -/
def InterruptDescriptorTable.set_stack_index
    (idt : InterruptDescriptorTable) (v : Fin 256) (i : Nat) :
    InterruptDescriptorTable :=
  ⟨Function.update idt.entries v
    ((idt.entries v).map fun e => ⟨e.handler, some i⟩)⟩

/-- The x86_64 vector number of the breakpoint exception. -/
def BREAKPOINT_VECTOR : Fin 256 := ⟨3, by decide⟩

/-- The x86_64 vector number of the double fault exception. -/
def DOUBLE_FAULT_VECTOR : Fin 256 := ⟨8, by decide⟩

/-- interrupts.rs IDT initialiser: a fresh table; set the breakpoint
handler; set the double fault handler and give it stack index
gdt::DOUBLE_FAULT_IST_INDEX. -/
def buildIDT : InterruptDescriptorTable :=
  let idt0 := InterruptDescriptorTable.new
  let idt1 := idt0.set_handler BREAKPOINT_VECTOR HandlerTag.breakpoint_handler
  let idt2 := idt1.set_handler DOUBLE_FAULT_VECTOR HandlerTag.double_fault_handler
  idt2.set_stack_index DOUBLE_FAULT_VECTOR DOUBLE_FAULT_IST_INDEX

/-! ## Boot-time sequencing (lib.rs init, gdt.rs init, interrupts.rs
init_idt)

TSS, GDT and IDT are lazy statics: they are built on first dereference.
The observable boot actions are modelled as events; the state records
which lazy statics have been forced. -/

/-- Observable boot events: the three lazy-static constructions and the
hardware install steps (lgdt, CS reload, TR load, lidt). -/
inductive Event
| tssBuild
| gdtBuild
| gdtLoad
| setCS
| loadTSS
| idtBuild
| idtLoad
deriving DecidableEq

/-- Which lazy statics have been forced so far. -/
structure BootState where
  tss_built : Bool
  gdt_built : Bool
  idt_built : Bool
deriving DecidableEq

/-- The state at entry to the kernel: nothing built. -/
def initialState : BootState := ⟨false, false, false⟩

/-- Dereference the lazy static TSS: on first access run its
initialiser (gdt.rs). -/
def forceTSS (s : BootState) : BootState × List Event :=
  if s.tss_built then (s, [])
  else ({ s with tss_built := true }, [Event.tssBuild])

/-- Dereference the lazy static GDT: on first access the initialiser
runs; it dereferences TSS (Descriptor::tss_segment takes the address of
TSS), forcing the TSS build, before the GDT itself is complete. -/
def forceGDT (s : BootState) : BootState × List Event :=
  if s.gdt_built then (s, [])
  else
    let p := forceTSS s
    ({ p.1 with gdt_built := true }, p.2 ++ [Event.gdtBuild])

/-- Dereference the lazy static IDT: on first access run its
initialiser (interrupts.rs); it reads only the constant
DOUBLE_FAULT_IST_INDEX, forcing nothing else. -/
def forceIDT (s : BootState) : BootState × List Event :=
  if s.idt_built then (s, [])
  else ({ s with idt_built := true }, [Event.idtBuild])

/-- gdt.rs init: GDT.0.load() forces and loads the GDT, then
set_cs(code_selector) and load_tss(tss_selector). -/
def gdt_init (s : BootState) : BootState × List Event :=
  let p := forceGDT s
  (p.1, p.2 ++ [Event.gdtLoad, Event.setCS, Event.loadTSS])

/-- interrupts.rs init_idt: IDT.load() forces and loads the IDT. -/
def init_idt (s : BootState) : BootState × List Event :=
  let p := forceIDT s
  (p.1, p.2 ++ [Event.idtLoad])

/-- lib.rs init: gdt::init() then interrupts::init_idt(). -/
def init (s : BootState) : BootState × List Event :=
  let p := gdt_init s
  let q := init_idt p.1
  (q.1, p.2 ++ q.2)

/-- The public entry points of the subsystem a caller may invoke. -/
inductive EntryCall
| callGdtInit
| callInitIdt
| callInit
deriving DecidableEq

/-- Step semantics of one entry-point invocation. -/
def callStep : EntryCall → BootState → BootState × List Event
| .callGdtInit, s => gdt_init s
| .callInitIdt, s => init_idt s
| .callInit, s => init s

/-- Run a sequence of entry-point invocations, concatenating the
emitted events. -/
def runCalls : BootState → List EntryCall → BootState × List Event
| s, [] => (s, [])
| s, c :: cs =>
  let p := callStep c s
  let q := runCalls p.1 cs
  (q.1, p.2 ++ q.2)

/-- No gdtLoad event occurs before the first tssBuild event: every
install of the descriptor table is preceded by the task-context build. -/
def noLoadBeforeBuild : List Event → Bool
| [] => true
| Event.tssBuild :: _ => true
| Event.gdtLoad :: _ => false
| _ :: rest => noLoadBeforeBuild rest

/-- Appending preserves noLoadBeforeBuild provided the first part
already contains the build event, or the appended part is itself
clean. -/
lemma nlb_append : ∀ tr seg : List Event,
    noLoadBeforeBuild tr = true →
    (Event.tssBuild ∈ tr ∨ noLoadBeforeBuild seg = true) →
    noLoadBeforeBuild (tr ++ seg) = true := by
  intro tr
  induction tr with
  | nil =>
    intro seg _ h2
    rcases h2 with h | h
    · cases h
    · simpa using h
  | cons a t ih =>
    intro seg h1 h2
    cases a with
    | tssBuild => simp [noLoadBeforeBuild]
    | gdtLoad => simp [noLoadBeforeBuild] at h1
    | gdtBuild =>
      refine ih seg h1 ?_
      rcases h2 with h | h
      · rcases List.mem_cons.mp h with h | h
        · cases h
        · exact Or.inl h
      · exact Or.inr h
    | setCS =>
      refine ih seg h1 ?_
      rcases h2 with h | h
      · rcases List.mem_cons.mp h with h | h
        · cases h
        · exact Or.inl h
      · exact Or.inr h
    | loadTSS =>
      refine ih seg h1 ?_
      rcases h2 with h | h
      · rcases List.mem_cons.mp h with h | h
        · cases h
        · exact Or.inl h
      · exact Or.inr h
    | idtBuild =>
      refine ih seg h1 ?_
      rcases h2 with h | h
      · rcases List.mem_cons.mp h with h | h
        · cases h
        · exact Or.inl h
      · exact Or.inr h
    | idtLoad =>
      refine ih seg h1 ?_
      rcases h2 with h | h
      · rcases List.mem_cons.mp h with h | h
        · cases h
        · exact Or.inl h
      · exact Or.inr h

/-- Invariant tying the boot state to the trace emitted so far. -/
def InvP (s : BootState) (tr : List Event) : Prop :=
  noLoadBeforeBuild tr = true ∧
  (s.tss_built = true → Event.tssBuild ∈ tr) ∧
  (s.gdt_built = true → s.tss_built = true)

/-- gdt.rs init preserves the invariant. -/
lemma invP_gdt_init (s : BootState) (tr : List Event) (h : InvP s tr) :
    InvP (gdt_init s).1 (tr ++ (gdt_init s).2) := by
  obtain ⟨h1, h2, h3⟩ := h
  cases hg : s.gdt_built with
  | true =>
    have ht : s.tss_built = true := h3 hg
    have hm : Event.tssBuild ∈ tr := h2 ht
    refine ⟨nlb_append tr _ h1 (Or.inl hm), ?_, ?_⟩
    · intro _
      simp [gdt_init, forceGDT, hg]
      exact hm
    · intro _
      simp [gdt_init, forceGDT, hg, ht]
  | false =>
    cases ht : s.tss_built with
    | true =>
      have hm : Event.tssBuild ∈ tr := h2 ht
      refine ⟨nlb_append tr _ h1 (Or.inl hm), ?_, ?_⟩
      · intro _
        simp [gdt_init, forceGDT, forceTSS, hg, ht]
        exact hm
      · intro _
        simp [gdt_init, forceGDT, forceTSS, hg, ht]
    | false =>
      refine ⟨?_, ?_, ?_⟩
      · refine nlb_append tr _ h1 (Or.inr ?_)
        simp [gdt_init, forceGDT, forceTSS, hg, ht, noLoadBeforeBuild]
      · intro _
        simp [gdt_init, forceGDT, forceTSS, hg, ht]
      · intro _
        simp [gdt_init, forceGDT, forceTSS, hg, ht]

/-- interrupts.rs init_idt preserves the invariant. -/
lemma invP_init_idt (s : BootState) (tr : List Event) (h : InvP s tr) :
    InvP (init_idt s).1 (tr ++ (init_idt s).2) := by
  obtain ⟨h1, h2, h3⟩ := h
  refine ⟨?_, ?_, ?_⟩
  · refine nlb_append tr _ h1 (Or.inr ?_)
    cases hi : s.idt_built <;>
      simp [init_idt, forceIDT, hi, noLoadBeforeBuild]
  · intro ht
    exact List.mem_append_left _ (by
      cases hi : s.idt_built <;> simp_all [init_idt, forceIDT, hi])
  · intro hg
    cases hi : s.idt_built <;> simp_all [init_idt, forceIDT, hi]

/-- lib.rs init preserves the invariant. -/
lemma invP_init (s : BootState) (tr : List Event) (h : InvP s tr) :
    InvP (init s).1 (tr ++ (init s).2) := by
  have hg := invP_gdt_init s tr h
  have hi := invP_init_idt (gdt_init s).1 (tr ++ (gdt_init s).2) hg
  simpa [init, List.append_assoc] using hi

/-- Any single entry-point invocation preserves the invariant. -/
lemma invP_callStep (c : EntryCall) (s : BootState) (tr : List Event)
    (h : InvP s tr) : InvP (callStep c s).1 (tr ++ (callStep c s).2) := by
  cases c with
  | callGdtInit => exact invP_gdt_init s tr h
  | callInitIdt => exact invP_init_idt s tr h
  | callInit => exact invP_init s tr h

/-- Any sequence of entry-point invocations preserves the invariant. -/
lemma invP_runCalls : ∀ (cs : List EntryCall) (s : BootState)
    (tr : List Event), InvP s tr →
    InvP (runCalls s cs).1 (tr ++ (runCalls s cs).2) := by
  intro cs
  induction cs with
  | nil =>
    intro s tr h
    simpa [runCalls] using h
  | cons c cs ih =>
    intro s tr h
    have h1 := invP_callStep c s tr h
    have h2 := ih (callStep c s).1 (tr ++ (callStep c s).2) h1
    simpa [runCalls, List.append_assoc] using h2

/-- The invariant holds at kernel entry. -/
lemma invP_initial : InvP initialState [] := by
  refine ⟨rfl, ?_, ?_⟩ <;> intro h <;> exact absurd h (by decide)

/-! ## Claims -/

/-- C1: the alternate-stack index stored in the IDT double-fault entry
equals the TSS interrupt-stack-table slot index populated with the
fault stack: both are DOUBLE_FAULT_IST_INDEX, fixed by the outputs of
the two builders themselves (build time), for every placement of the
stack.  The populated slot holds a nonzero address while every other
slot holds the zero address. -/
theorem double_fault_ist_index_shared : ∀ stack_start : Nat,
    buildIDT.entries DOUBLE_FAULT_VECTOR =
      some ⟨HandlerTag.double_fault_handler, some DOUBLE_FAULT_IST_INDEX⟩ ∧
    (∀ i : Fin 7, (buildTSS stack_start).interrupt_stack_table i =
      if i = doubleFaultSlot then stack_start + STACK_SIZE else 0) ∧
    doubleFaultSlot.val = DOUBLE_FAULT_IST_INDEX ∧
    0 < stack_start + STACK_SIZE := by
  intro stack_start
  refine ⟨by decide, ?_, rfl, ?_⟩
  · intro i
    simp [buildTSS, TaskStateSegment.new, Function.update_apply]
  · have : 0 < STACK_SIZE := by decide
    omega

/-- C2: lib.rs init, run from the uninitialized boot state, performs in
strict order the task-context build, the descriptor-table build, the
descriptor-table install (lgdt, CS reload, TR load), the dispatch-table
build and the dispatch-table install; in particular no install precedes
its build and the descriptor-table install precedes the dispatch-table
install. -/
theorem init_strict_order :
    (init initialState).2 =
      [Event.tssBuild, Event.gdtBuild, Event.gdtLoad, Event.setCS,
       Event.loadTSS, Event.idtBuild, Event.idtLoad] := by
  decide

/-- C3: the built IDT populates exactly two of its 256 entries: vector 3
(breakpoint) with a handler that returns and carries no alternate-stack
index, and vector 8 (double fault) with a handler that diverges and
carries an alternate-stack index; every other entry is absent. -/
theorem idt_exactly_two_entries :
    (∀ v : Fin 256, buildIDT.entries v =
      if v = BREAKPOINT_VECTOR then
        some ⟨HandlerTag.breakpoint_handler, none⟩
      else if v = DOUBLE_FAULT_VECTOR then
        some ⟨HandlerTag.double_fault_handler, some DOUBLE_FAULT_IST_INDEX⟩
      else none) ∧
    BREAKPOINT_VECTOR.val = 3 ∧ DOUBLE_FAULT_VECTOR.val = 8 ∧
    (∀ (pr : PanicRuntime) (sf : InterruptStackFrame) (e : Nat),
      ∃ out sf2, invokeHandler pr HandlerTag.breakpoint_handler sf e =
        HandlerOutcome.returns out sf2) ∧
    (∀ (pr : PanicRuntime) (sf : InterruptStackFrame) (e : Nat),
      ∃ r, invokeHandler pr HandlerTag.double_fault_handler sf e =
        HandlerOutcome.diverges r) := by
  refine ⟨?_, rfl, rfl, ?_, ?_⟩
  · intro v
    by_cases h1 : v = BREAKPOINT_VECTOR
    · subst h1
      decide
    · by_cases h2 : v = DOUBLE_FAULT_VECTOR
      · subst h2
        decide
      · simp only [buildIDT, InterruptDescriptorTable.set_stack_index,
          InterruptDescriptorTable.set_handler, InterruptDescriptorTable.new,
          Function.update_apply, if_neg h1, if_neg h2]
  · intro pr sf e
    exact ⟨(breakpoint_run sf).1, (breakpoint_run sf).2, rfl⟩
  · intro pr sf e
    exact ⟨double_fault_run pr sf e, rfl⟩

/-- C4: the double-fault handler, on any snapshot and error code, writes
its diagnostic report and diverges: under the release panic runtime it
prints the report to the VGA buffer and spins in a halt loop; under the
test panic runtime it reports over serial, signals the harness through
the QEMU exit port and spins; the test double-fault handler of the
stack-overflow harness signals success to the harness and spins. -/
theorem double_fault_diverges_report :
    ∀ (sf : InterruptStackFrame) (e : Nat),
    (∀ pr : PanicRuntime, ∃ r : DivergingRun,
      invokeHandler pr HandlerTag.double_fault_handler sf e =
        HandlerOutcome.diverges r) ∧
    invokeHandler PanicRuntime.mainPanic HandlerTag.double_fault_handler sf e =
      HandlerOutcome.diverges
        ⟨[OutputEvent.vgaLine (doubleFaultReport sf)], Terminal.haltLoop⟩ ∧
    invokeHandler PanicRuntime.testPanic HandlerTag.double_fault_handler sf e =
      HandlerOutcome.diverges
        ⟨[OutputEvent.serialLine "[failed]",
          OutputEvent.serialLine ("Error: " ++ doubleFaultReport sf),
          exit_qemu QemuExitCode.Failed], Terminal.haltLoop⟩ ∧
    invokeHandler PanicRuntime.testPanic HandlerTag.test_double_fault_handler sf e =
      HandlerOutcome.diverges
        ⟨[OutputEvent.serialLine "[ok]", exit_qemu QemuExitCode.Success],
         Terminal.haltLoop⟩ := by
  intro sf e
  exact ⟨fun pr => ⟨double_fault_run pr sf e, rfl⟩, rfl, rfl, rfl⟩

/-- C5: the task-context build populates the double-fault slot (index 0)
with the top-of-range address of the fault stack, the stack start plus
its size, for every placement of the stack. -/
theorem tss_slot_holds_stack_top : ∀ stack_start : Nat,
    (buildTSS stack_start).interrupt_stack_table doubleFaultSlot =
      stack_start + STACK_SIZE ∧
    stack_start + STACK_SIZE = stack_start + 20480 := by
  intro stack_start
  constructor
  · simp [buildTSS, TaskStateSegment.new]
  · norm_num [STACK_SIZE]

/-- C6: the fault stack is a statically reserved byte region of fixed
size exactly 20 KiB = 20480 bytes, zero-initialised. -/
theorem fault_stack_size_20KiB :
    STACK.length = 20480 ∧ STACK_SIZE = 20 * 1024 ∧
    STACK = List.replicate 20480 0 := by
  refine ⟨?_, by decide, rfl⟩
  show (List.replicate STACK_SIZE 0).length = 20480
  rw [List.length_replicate]
  decide

/-- C7: the descriptor-table build appends exactly one kernel-code
descriptor and one task-state descriptor referencing the task context
by address (after the implicit null descriptor of a fresh table),
returning the selectors for slots 1 and 2; gdt.rs init emits, after the
lazy forcing, the table load, then the CS reload, then the TR load, in
that order. -/
theorem gdt_build_and_install : ∀ tss_addr : Nat,
    (buildGDT tss_addr).1.table =
      [Descriptor.null_descriptor, Descriptor.kernel_code_segment,
       Descriptor.tss_segment tss_addr] ∧
    (buildGDT tss_addr).2.code_selector = ⟨1, 0⟩ ∧
    (buildGDT tss_addr).2.tss_selector = ⟨2, 0⟩ ∧
    (∀ s : BootState, (gdt_init s).2 =
      (forceGDT s).2 ++ [Event.gdtLoad, Event.setCS, Event.loadTSS]) ∧
    (gdt_init initialState).2 =
      [Event.tssBuild, Event.gdtBuild, Event.gdtLoad, Event.setCS,
       Event.loadTSS] := by
  intro tss_addr
  exact ⟨rfl, rfl, rfl, fun s => rfl, by decide⟩

/-- C8: the breakpoint handler, on any snapshot, writes its
human-readable report to the diagnostic output and returns normally
with the snapshot, under either panic runtime. -/
theorem breakpoint_reports_and_returns :
    ∀ (pr : PanicRuntime) (sf : InterruptStackFrame) (e : Nat),
    invokeHandler pr HandlerTag.breakpoint_handler sf e =
      HandlerOutcome.returns
        [OutputEvent.vgaLine (breakpointReport sf)] sf := by
  intro pr sf e
  rfl

/-- C9: for every sequence of invocations of the public entry points,
no descriptor-table install event ever precedes the task-context build
event: forcing the GDT lazily constructs the TSS first, so the install
can never observe an unbuilt task context. -/
theorem gdt_install_forces_tss_build : ∀ calls : List EntryCall,
    noLoadBeforeBuild (runCalls initialState calls).2 = true := by
  intro calls
  have h := invP_runCalls calls initialState [] invP_initial
  simpa using h.1

/-- C10: the breakpoint handler leaves the snapshot it receives by
mutable reference unchanged: the frame it hands back equals the frame
on entry, field by field. -/
theorem breakpoint_preserves_frame : ∀ sf : InterruptStackFrame,
    (breakpoint_run sf).2 = sf ∧
    (breakpoint_run sf).2.instruction_pointer = sf.instruction_pointer ∧
    (breakpoint_run sf).2.code_segment = sf.code_segment ∧
    (breakpoint_run sf).2.cpu_flags = sf.cpu_flags ∧
    (breakpoint_run sf).2.stack_pointer = sf.stack_pointer ∧
    (breakpoint_run sf).2.stack_segment = sf.stack_segment := by
  intro sf
  exact ⟨rfl, rfl, rfl, rfl, rfl, rfl⟩

end RustOS
